import Mathlib

/-!
Shallow embedding of the gr8r-airtable-worker Cloudflare worker (v1.2.4):
the POST /api/airtable/update upsert handler, the POST /api/airtable/get
lookup handler, and the logToGrafana telemetry helper.

Modelling conventions:
- JSON values are modelled by `JVal`.
- A JS member that may be absent (undefined) is an `Option`; request members
  that are strings in every observed payload (table, title, matchField,
  matchValue) are modelled as `Option String`, with JS string truthiness
  being nonemptiness.
- Environment bindings (secrets) are strings, with the empty string standing
  for an absent binding (both are falsy in JS).
- The upstream Airtable responses and the telemetry sink outcome are inputs
  to the handler functions; the handler records the upstream calls it makes
  and the telemetry events it emits.
-/

inductive JVal where
  | jnull
  | jbool (b : Bool)
  | jnum (n : Int)
  | jstr (s : String)
  | jarr (elems : List JVal)
  | jobj (entries : List (String × JVal))

/-- JS truthiness of a string member that may be absent: undefined and the
empty string are falsy, every other string is truthy. -/
def truthyS : Option String → Bool
  | none => false
  | some s => s ≠ ""

/-- JS truthiness of a JSON value. -/
def JVal.truthy : JVal → Bool
  | .jnull => false
  | .jbool b => b
  | .jnum n => n ≠ 0
  | .jstr s => s ≠ ""
  | .jarr _ => true
  | .jobj _ => true

/-- JS truthiness of a JSON member that may be absent. -/
def truthyJ : Option JVal → Bool
  | none => false
  | some v => v.truthy

/-- Whether `typeof v` is the string "object" in JS: true for null, arrays
and plain objects, false for booleans, numbers and strings. -/
def typeofObject : JVal → Bool
  | .jnull => true
  | .jarr _ => true
  | .jobj _ => true
  | _ => false

/-- `typeof` test on a member that may be absent (typeof undefined is
"undefined", not "object"). -/
def typeofObjectOpt : Option JVal → Bool
  | none => false
  | some v => typeofObject v

/-- Object.entries: own enumerable entries of a value. For a plain object
these are its key/value pairs; for an array they are index-string/value
pairs. The remaining cases are unreachable at the call site in the worker
(the shape check has already ruled out null and non-object values). -/
def entriesOf : JVal → List (String × JVal)
  | .jobj kvs => kvs
  | .jarr xs => (xs.enum).map (fun p => (toString p.1, p.2))
  | _ => []

/-- Lookup of the value bound to a key in an object entry list (first
binding wins; a JS object or parsed JSON object has each key at most
once). -/
def lookupKey : List (String × α) → String → Option α
  | [], _ => none
  | p :: rest, k => if p.1 = k then some p.2 else lookupKey rest k

/-- JS property access `v.key`. Accessing a property of null throws
(modelled as `Except.error`); access on a plain object yields the bound
value or undefined (`none`); property access on primitives and arrays
yields undefined for the keys the worker reads. -/
def propAccess : JVal → String → Except Unit (Option JVal)
  | .jnull, _ => .error ()
  | .jobj kvs, k => .ok (lookupKey kvs k)
  | _, _ => .ok none

example : truthyS (some "") = false := by decide
example : truthyJ (some (.jarr [])) = true := by decide
example : typeofObjectOpt (some (.jarr [])) = true := by decide
example : typeofObjectOpt (some (.jstr "x")) = false := by decide
example : propAccess (.jobj [("id", .jstr "r1")]) "id" = .ok (some (.jstr "r1")) := rfl

/-- The parsed JSON body of a POST /api/airtable/update request, after the
destructuring `const \x7b table, title, fields, matchField, matchValue \x7d = body`.
Members absent from the payload are `none`. -/
structure Body where
  table : Option String
  title : Option String
  fields : Option JVal
  matchField : Option String
  matchValue : Option String

/-- The validation guard of the update handler, line for line:
`!table || !fields || typeof fields !== "object" ||
 (!title && (!matchField || !matchValue))`. -/
def invalidPayload (b : Body) : Bool :=
  !truthyS b.table || !truthyJ b.fields || !typeofObjectOpt b.fields ||
    (!truthyS b.title && (!truthyS b.matchField || !truthyS b.matchValue))

/-- The fixed table allowlist of the update handler (Airtable table IDs). -/
def allowedTables : List String := ["tblQKTuBRVrpJLmJp", "tblnn4fS7cSkcJW12"]

/-- Whether a JSON value is exactly the empty string. -/
def JVal.isEmptyString : JVal → Bool
  | .jstr s => s = ""
  | _ => false

/-- The field sanitizer:
`Object.fromEntries(Object.entries(fields).filter(([_, value]) => value !== ""))`.
Entries whose value is exactly the empty string are dropped; all other
entries (null, 0, false included) pass through unchanged. -/
def cleanedFields (fields : JVal) : List (String × JVal) :=
  (entriesOf fields).filter (fun p => !p.2.isEmptyString)

/-- The key resolver, first component: `const filterField = matchField || "Title"`. -/
def filterField (b : Body) : String :=
  match b.matchField with
  | some s => if s ≠ "" then s else "Title"
  | none => "Title"

/-- The key resolver, second component: `const filterValue = matchValue || title`.
The result can be an absent value only for payloads the validation guard
rejects. -/
def filterValue (b : Body) : Option String :=
  if truthyS b.matchValue then b.matchValue else b.title

/-- The resolved lookup key used to build the filterByFormula query. -/
def resolvedKey (b : Body) : String × Option String :=
  (filterField b, filterValue b)

/-- JS object-literal update: binding key `k` to `v` in an object that may or
may not already have `k`. An existing binding is overwritten in place; a new
binding is appended at the end, as in JS insertion order. -/
def objBind (kvs : List (String × α)) (k : String) (v : α) : List (String × α) :=
  if kvs.any (fun p => p.1 == k) then
    kvs.map (fun p => if p.1 == k then (k, v) else p)
  else
    kvs ++ [(k, v)]

/-- JS object spread `\x7b ...base, ...more \x7d`: the entries of `more` are bound
one by one over `base`, later bindings overriding earlier ones. -/
def objSpread (base more : List (String × α)) : List (String × α) :=
  more.foldl (fun acc p => objBind acc p.1 p.2) base

/-- JSON.stringify on an object whose member values may be undefined
(`none`): undefined-valued members are omitted from the serialized object. -/
def dropUndefined (o : List (String × Option JVal)) : List (String × JVal) :=
  o.filterMap (fun p => p.2.map (fun v => (p.1, v)))

/-- The field bag serialized into the create request:
`JSON.stringify(\x7b records: [\x7b fields: \x7b Title: title, ...cleanedFields \x7d \x7d] \x7d)`.
The Title member holds the raw `title` value (undefined when the request has
no title, in which case serialization drops it); the sanitized fields are
spread after it and so override a Title entry they may contain. -/
def createFieldsSent (b : Body) : List (String × JVal) :=
  dropUndefined
    (objSpread [("Title", b.title.map JVal.jstr)]
      ((cleanedFields (b.fields.getD .jnull)).map (fun p => (p.1, some p.2))))

example :
    createFieldsSent
      ⟨some "t", some "Ep12", some (.jobj [("Status", .jstr "P"), ("AirDate", .jstr "")]),
        none, none⟩ =
      [("Title", .jstr "Ep12"), ("Status", .jstr "P")] := rfl

example :
    createFieldsSent
      ⟨some "t", none, some (.jobj [("Status", .jstr "New")]), some "Email", some "a"⟩ =
      [("Status", .jstr "New")] := rfl

example :
    createFieldsSent
      ⟨some "t", some "Ep12", some (.jobj [("Title", .jstr "Other")]), none, none⟩ =
      [("Title", .jstr "Other")] := rfl

/-- One upstream Airtable HTTP response, already parsed:
`ok`/`status` from the Response object, `body` from `await response.json()`. -/
structure UpResponse where
  ok : Bool
  status : Nat
  body : JVal

/-- Behavior of the telemetry sink (the GRAFANA_WORKER service binding) for
one delivery attempt: it can deliver with some status, or the fetch itself
can reject. -/
inductive SinkResult where
  | delivered (ok : Bool) (status : Nat)
  | raised

/-- One structured telemetry event as assembled by logToGrafana: level,
message, and the meta members the claims observe (service, source, upstream
status and upstream response body when the call site passes them). -/
structure Event where
  level : String
  message : String
  service : String
  source : String
  upStatus : Option Nat
  upBody : Option JVal

/-- The delivery attempt inside logToGrafana: the fetch to the sink and the
`if (!res.ok) throw` check, both inside its try block. -/
def logAttempt : SinkResult → Except String Unit
  | .delivered true _ => .ok ()
  | .delivered false st => .error ("Grafana log failed: " ++ toString st)
  | .raised => .error "fetch rejected"

/-- logToGrafana: builds the payload, attempts delivery, and catches any
failure (logging it to the console only). It always returns normally, and
the event it reports is the payload it was given, whatever the sink did. -/
def logToGrafana (sink : SinkResult) (level msg service : String)
    (upStatus : Option Nat) (upBody : Option JVal) : Event :=
  let payload : Event := ⟨level, msg, service, "gr8r-airtable-worker", upStatus, upBody⟩
  match logAttempt sink with
  | .ok _ => payload
  | .error _ => payload

/-- One network call to the upstream Airtable API, as issued by the worker:
the filtered search, the create POST, or the PATCH of one record. -/
inductive UpCall where
  | search (table : String) (field : String) (value : Option String)
  | create (table : String) (fields : List (String × JVal))
  | patch (table : String) (recordId : Option JVal) (fields : List (String × JVal))

/-- Body of the HTTP response returned to the caller: plain text for the
error branches, the success JSON (recordId and fields members are dropped
by JSON.stringify when undefined), or the raw passthrough of the get
route. -/
inductive RBody where
  | text (s : String)
  | successJson (recordId : Option JVal) (fields : Option JVal)
  | raw (data : JVal)

/-- The HTTP response returned to the caller. -/
structure HttpResponse where
  status : Nat
  body : RBody

/-- Observable outcome of one handler run: the caller-visible response, the
telemetry events emitted (in order), and the upstream Airtable calls made
(in order). -/
structure HResult where
  resp : HttpResponse
  events : List Event
  calls : List UpCall

/-- The environment bindings the handler reads; an absent binding is the
empty string (both are falsy where the code tests them). -/
structure Env where
  airtableToken : String
  airtableBaseId : String

/-- Reading `searchResult.records` and taking its `.length`/indexing: yields
the list when `records` is an array; any other shape makes the first
property access on it throw, landing in the unhandled-exception branch. -/
def getRecordsList (body : JVal) : Except Unit (List JVal) :=
  match propAccess body "records" with
  | .error _ => .error ()
  | .ok none => .error ()
  | .ok (some (.jarr xs)) => .ok xs
  | .ok (some _) => .error ()

/-- The terminal branch of the outer catch block: one error event tagged
service "unhandled", and a 500 response carrying the error message. -/
def unhandledOutcome (sink : SinkResult) (calls : List UpCall) : HResult :=
  { resp := ⟨500, .text "Unexpected error"⟩,
    events := [logToGrafana sink "error" "Unexpected Airtable worker error" "unhandled" none none],
    calls := calls }

/-- The POST /api/airtable/update handler. Inputs: the environment, the
parsed request body (`none` when `request.json()` threw), the upstream
response to the search and to the write (create or patch) the run may
issue, and the sink behavior for telemetry deliveries. -/
def runUpdate (env : Env) (reqBody : Option Body)
    (searchResp writeResp : UpResponse) (sink : SinkResult) : HResult :=
  match reqBody with
  | none => unhandledOutcome sink []
  | some b =>
    if invalidPayload b then
      { resp := ⟨400, .text "Missing or invalid fields"⟩,
        events := [logToGrafana sink "error" "Missing or invalid payload fields" "validation" none none],
        calls := [] }
    else if !(allowedTables.contains (b.table.getD "")) then
      { resp := ⟨403, .text "Invalid table"⟩,
        events := [logToGrafana sink "error" "Invalid table name" "validation" none none],
        calls := [] }
    else if env.airtableToken = "" ∨ env.airtableBaseId = "" then
      { resp := ⟨500, .text "Missing required secret(s)"⟩,
        events := [logToGrafana sink "error" "Missing required secrets" "secrets" none none],
        calls := [] }
    else
      let t := b.table.getD ""
      let cleaned := cleanedFields (b.fields.getD .jnull)
      let searchCall := UpCall.search t (filterField b) (filterValue b)
      if !searchResp.ok then
        { resp := ⟨500, .text "Airtable search failed"⟩,
          events := [logToGrafana sink "error" "Airtable search failed" "airtable-search"
            (some searchResp.status) (some searchResp.body)],
          calls := [searchCall] }
      else
        match getRecordsList searchResp.body with
        | .error _ => unhandledOutcome sink [searchCall]
        | .ok records =>
          match records with
          | [] =>
            let createCall := UpCall.create t (createFieldsSent b)
            if !writeResp.ok then
              { resp := ⟨500, .text "Airtable create failed"⟩,
                events := [logToGrafana sink "error" "Airtable create failed" "airtable-create"
                  (some writeResp.status) (some writeResp.body)],
                calls := [searchCall, createCall] }
            else
              match getRecordsList writeResp.body with
              | .error _ => unhandledOutcome sink [searchCall, createCall]
              | .ok [] => unhandledOutcome sink [searchCall, createCall]
              | .ok (r0 :: _) =>
                match propAccess r0 "id", propAccess r0 "fields" with
                | .ok rid, .ok rfs =>
                  { resp := ⟨200, .successJson rid rfs⟩,
                    events := [logToGrafana sink "info" "Airtable create successful" "airtable-create" none none],
                    calls := [searchCall, createCall] }
                | _, _ => unhandledOutcome sink [searchCall, createCall]
          | r0 :: _ =>
            match propAccess r0 "id" with
            | .error _ => unhandledOutcome sink [searchCall]
            | .ok rid =>
              let patchCall := UpCall.patch t rid cleaned
              if !writeResp.ok then
                { resp := ⟨500, .text "Airtable update failed"⟩,
                  events := [logToGrafana sink "error" "Airtable update failed" "airtable-update"
                    (some writeResp.status) (some writeResp.body)],
                  calls := [searchCall, patchCall] }
              else
                match propAccess writeResp.body "fields" with
                | .error _ => unhandledOutcome sink [searchCall, patchCall]
                | .ok rfs =>
                  { resp := ⟨200, .successJson rid rfs⟩,
                    events := [logToGrafana sink "info" "Airtable update successful" "airtable-update" none none],
                    calls := [searchCall, patchCall] }

/-- The parsed JSON body of a POST /api/airtable/get request. -/
structure GetBody where
  table : Option String
  matchField : Option String
  matchValue : Option String

/-- The POST /api/airtable/get handler: presence checks on table, matchField
and matchValue (no allowlist check, no telemetry on the 400 path), then an
unconditional upstream search whose parsed body and status are passed back
to the caller. A thrown error lands in its catch block, which reports one
event tagged service "airtable-get". -/
def runGet (_env : Env) (reqBody : Option GetBody)
    (searchResp : UpResponse) (sink : SinkResult) : HResult :=
  match reqBody with
  | none =>
    { resp := ⟨500, .text "Error retrieving Airtable records"⟩,
      events := [logToGrafana sink "error" "Airtable GET error" "airtable-get" none none],
      calls := [] }
  | some g =>
    if !truthyS g.table || !truthyS g.matchField || !truthyS g.matchValue then
      { resp := ⟨400, .text "Missing required fields"⟩, events := [], calls := [] }
    else
      { resp := ⟨searchResp.status, .raw searchResp.body⟩,
        events := [],
        calls := [UpCall.search (g.table.getD "") (g.matchField.getD "") g.matchValue] }

/-! Concrete fixtures used by the sanity checks, witnesses and
counterexamples below. -/

def envStd : Env := ⟨"tok", "base"⟩

/-- A search response with zero matching records. -/
def searchEmpty : UpResponse := ⟨true, 200, .jobj [("records", .jarr [])]⟩

/-- An existing upstream record. -/
def rec1 : JVal := .jobj [("id", .jstr "rec1"), ("fields", .jobj [("Status", .jstr "P")])]

/-- A second existing upstream record. -/
def rec2 : JVal := .jobj [("id", .jstr "rec2"), ("fields", .jobj [])]

/-- A search response with one matching record. -/
def searchOne : UpResponse := ⟨true, 200, .jobj [("records", .jarr [rec1])]⟩

/-- A search response with two matching records. -/
def searchTwo : UpResponse := ⟨true, 200, .jobj [("records", .jarr [rec1, rec2])]⟩

/-- A successful create response echoing the new record. -/
def writeCreated : UpResponse := ⟨true, 200, .jobj [("records", .jarr [rec1])]⟩

/-- A successful patch response echoing the patched record. -/
def writePatched : UpResponse := ⟨true, 200, rec1⟩

/-- A failing upstream response. -/
def upFailed : UpResponse := ⟨false, 503, .jobj [("error", .jstr "boom")]⟩

/-- A title-only valid request against the first allowlisted table. -/
def reqTitle : Body :=
  ⟨some "tblQKTuBRVrpJLmJp", some "Ep12",
    some (.jobj [("Status", .jstr "P"), ("AirDate", .jstr "")]), none, none⟩

example :
    (runUpdate envStd (some reqTitle) searchEmpty writeCreated (.delivered true 200)).calls =
      [UpCall.search "tblQKTuBRVrpJLmJp" "Title" (some "Ep12"),
       UpCall.create "tblQKTuBRVrpJLmJp" [("Title", .jstr "Ep12"), ("Status", .jstr "P")]] := rfl

example :
    (runUpdate envStd (some reqTitle) searchEmpty writeCreated (.delivered true 200)).resp.status = 200 := rfl

example :
    (runUpdate envStd (some reqTitle) searchOne writePatched .raised).calls =
      [UpCall.search "tblQKTuBRVrpJLmJp" "Title" (some "Ep12"),
       UpCall.patch "tblQKTuBRVrpJLmJp" (some (.jstr "rec1")) [("Status", .jstr "P")]] := rfl

example :
    (runUpdate envStd (some ⟨some "Elsewhere", some "T", some (.jobj []), none, none⟩)
      searchOne writePatched .raised).resp.status = 403 := rfl

example :
    (runUpdate envStd (some ⟨some "tblQKTuBRVrpJLmJp", none, some (.jobj []), none, none⟩)
      searchOne writePatched .raised).resp.status = 400 := rfl

/-! Association-list lemmas about `lookupKey`, `objBind`, `objSpread` and
`dropUndefined`, used to reason about the JS object literals the worker
builds. -/

/-- The keys of an object entry list, in order. -/
def keysOf (kvs : List (String × α)) : List String := kvs.map Prod.fst

theorem keysOf_cons (p : String × α) (rest : List (String × α)) :
    keysOf (p :: rest) = p.1 :: keysOf rest := rfl

theorem lookupKey_eq_none_iff (kvs : List (String × α)) (k : String) :
    lookupKey kvs k = none ↔ k ∉ keysOf kvs := by
  induction kvs with
  | nil => simp [lookupKey, keysOf]
  | cons p rest ih =>
    rw [keysOf_cons]
    by_cases h : p.1 = k
    · simp [lookupKey, h]
    · simp only [lookupKey, if_neg h, List.mem_cons, ih]
      constructor
      · rintro hk (rfl | hm)
        · exact h rfl
        · exact hk hm
      · exact fun hk hm => hk (Or.inr hm)

theorem lookupKey_append (l1 l2 : List (String × α)) (k : String) :
    lookupKey (l1 ++ l2) k =
      match lookupKey l1 k with
      | some v => some v
      | none => lookupKey l2 k := by
  induction l1 with
  | nil => simp [lookupKey]
  | cons p rest ih =>
    by_cases h : p.1 = k <;> simp [lookupKey, h, ih]

theorem any_key_iff (kvs : List (String × α)) (k : String) :
    (kvs.any (fun p => p.1 == k)) = true ↔ k ∈ keysOf kvs := by
  simp [List.any_eq_true, keysOf, List.mem_map, beq_iff_eq]

theorem lookupKey_map_bind_self (kvs : List (String × α)) (k : String) (v : α)
    (h : k ∈ keysOf kvs) :
    lookupKey (kvs.map (fun p => if p.1 == k then (k, v) else p)) k = some v := by
  induction kvs with
  | nil => simp [keysOf] at h
  | cons p rest ih =>
    rw [List.map_cons]
    by_cases hp : p.1 = k
    · have he : (if p.1 == k then (k, v) else p) = (k, v) := by simp [hp]
      rw [he]
      simp [lookupKey]
    · have he : (if p.1 == k then (k, v) else p) = p := by simp [hp]
      rw [he]
      have hk : k ∈ keysOf rest := by
        rw [keysOf_cons] at h
        rcases List.mem_cons.mp h with h1 | h1
        · exact absurd h1.symm hp
        · exact h1
      simp only [lookupKey, if_neg hp]
      exact ih hk

theorem lookupKey_map_bind_other (kvs : List (String × α)) (k k2 : String) (v : α)
    (hne : k ≠ k2) :
    lookupKey (kvs.map (fun p => if p.1 == k2 then (k2, v) else p)) k =
      lookupKey kvs k := by
  induction kvs with
  | nil => simp [lookupKey]
  | cons p rest ih =>
    rw [List.map_cons]
    by_cases hp : p.1 = k2
    · have he : (if p.1 == k2 then (k2, v) else p) = (k2, v) := by simp [hp]
      rw [he]
      have hpk : ¬p.1 = k := fun hc => hne (hc.symm.trans hp)
      simp only [lookupKey]
      rw [if_neg (by simpa using Ne.symm hne), if_neg hpk]
      exact ih
    · have he : (if p.1 == k2 then (k2, v) else p) = p := by simp [hp]
      rw [he]
      simp only [lookupKey]
      by_cases hpk : p.1 = k
      · rw [if_pos hpk, if_pos hpk]
      · rw [if_neg hpk, if_neg hpk]
        exact ih

theorem lookupKey_objBind_self (kvs : List (String × α)) (k : String) (v : α) :
    lookupKey (objBind kvs k v) k = some v := by
  unfold objBind
  split
  · rename_i h
    exact lookupKey_map_bind_self kvs k v ((any_key_iff kvs k).mp h)
  · rename_i h
    have hk : k ∉ keysOf kvs := fun hc => h ((any_key_iff kvs k).mpr hc)
    rw [lookupKey_append, (lookupKey_eq_none_iff kvs k).mpr hk]
    simp [lookupKey]

theorem lookupKey_objBind_other (kvs : List (String × α)) (k k2 : String) (v : α)
    (hne : k ≠ k2) : lookupKey (objBind kvs k2 v) k = lookupKey kvs k := by
  unfold objBind
  split
  · exact lookupKey_map_bind_other kvs k k2 v hne
  · rw [lookupKey_append]
    cases hl : lookupKey kvs k with
    | some v2 => simp
    | none => simp [lookupKey, Ne.symm hne]

theorem keysOf_objBind_of_mem (kvs : List (String × α)) (k : String) (v : α)
    (h : k ∈ keysOf kvs) : keysOf (objBind kvs k v) = keysOf kvs := by
  unfold objBind
  rw [if_pos ((any_key_iff kvs k).mpr h)]
  unfold keysOf
  rw [List.map_map]
  apply List.map_congr_left
  intro p _
  by_cases hp : p.1 = k <;> simp [hp]

theorem keysOf_objBind_of_not_mem (kvs : List (String × α)) (k : String) (v : α)
    (h : k ∉ keysOf kvs) : keysOf (objBind kvs k v) = keysOf kvs ++ [k] := by
  unfold objBind
  rw [if_neg]
  · simp [keysOf]
  · intro hc; exact h ((any_key_iff kvs k).mp hc)

theorem nodup_keysOf_objBind (kvs : List (String × α)) (k : String) (v : α)
    (h : (keysOf kvs).Nodup) : (keysOf (objBind kvs k v)).Nodup := by
  by_cases hk : k ∈ keysOf kvs
  · rw [keysOf_objBind_of_mem kvs k v hk]; exact h
  · rw [keysOf_objBind_of_not_mem kvs k v hk]
    simp [List.nodup_append, h, hk]

theorem nodup_keysOf_objSpread (base more : List (String × α))
    (h : (keysOf base).Nodup) : (keysOf (objSpread base more)).Nodup := by
  induction more generalizing base with
  | nil => exact h
  | cons p rest ih =>
    exact ih (objBind base p.1 p.2) (nodup_keysOf_objBind base p.1 p.2 h)

theorem lookupKey_objSpread_not_mem (base more : List (String × α)) (k : String)
    (h : k ∉ keysOf more) : lookupKey (objSpread base more) k = lookupKey base k := by
  induction more generalizing base with
  | nil => rfl
  | cons p rest ih =>
    have hk1 : k ≠ p.1 := by
      intro hc; exact h (by simp [keysOf, hc])
    have hk2 : k ∉ keysOf rest := by
      intro hc; exact h (by simp [keysOf] at hc ⊢; exact Or.inr hc)
    rw [show objSpread base (p :: rest) = objSpread (objBind base p.1 p.2) rest from rfl,
      ih (objBind base p.1 p.2) hk2, lookupKey_objBind_other base k p.1 p.2 hk1]

theorem lookupKey_objSpread_mem (base more : List (String × α)) (k : String) (v : α)
    (hnd : (keysOf more).Nodup) (hm : (k, v) ∈ more) :
    lookupKey (objSpread base more) k = some v := by
  induction more generalizing base with
  | nil => simp at hm
  | cons p rest ih =>
    rw [keysOf_cons] at hnd
    obtain ⟨hnd1, hnd2⟩ := List.nodup_cons.mp hnd
    rcases List.mem_cons.mp hm with heq | hrest
    · subst heq
      rw [show objSpread base ((k, v) :: rest) = objSpread (objBind base k v) rest from rfl,
        lookupKey_objSpread_not_mem (objBind base k v) rest k hnd1,
        lookupKey_objBind_self base k v]
    · exact ih (objBind base p.1 p.2) hnd2 hrest

theorem dropUndefined_cons_none (p : String × Option JVal)
    (rest : List (String × Option JVal)) (hv : p.2 = none) :
    dropUndefined (p :: rest) = dropUndefined rest := by
  simp [dropUndefined, hv]

theorem dropUndefined_cons_some (p : String × Option JVal)
    (rest : List (String × Option JVal)) (v : JVal) (hv : p.2 = some v) :
    dropUndefined (p :: rest) = (p.1, v) :: dropUndefined rest := by
  simp [dropUndefined, hv]

theorem keysOf_dropUndefined_subset (o : List (String × Option JVal)) :
    keysOf (dropUndefined o) ⊆ keysOf o := by
  induction o with
  | nil => simp [dropUndefined, keysOf]
  | cons p rest ih =>
    rw [keysOf_cons]
    cases hv : p.2 with
    | none =>
      rw [dropUndefined_cons_none p rest hv]
      exact fun k hk => List.mem_cons_of_mem _ (ih hk)
    | some v =>
      rw [dropUndefined_cons_some p rest v hv, keysOf_cons]
      intro k hk
      rcases List.mem_cons.mp hk with h | h
      · exact List.mem_cons.mpr (Or.inl h)
      · exact List.mem_cons_of_mem _ (ih h)

theorem lookupKey_dropUndefined (o : List (String × Option JVal)) (k : String)
    (hnd : (keysOf o).Nodup) :
    lookupKey (dropUndefined o) k = (lookupKey o k).bind id := by
  induction o with
  | nil => simp [dropUndefined, lookupKey]
  | cons p rest ih =>
    rw [keysOf_cons] at hnd
    obtain ⟨hnd1, hnd2⟩ := List.nodup_cons.mp hnd
    by_cases hk : p.1 = k
    · subst hk
      cases hv : p.2 with
      | some v =>
        rw [dropUndefined_cons_some p rest v hv]
        simp [lookupKey, hv]
      | none =>
        rw [dropUndefined_cons_none p rest hv]
        have hnone : lookupKey (dropUndefined rest) p.1 = none := by
          rw [lookupKey_eq_none_iff]
          exact fun hc => hnd1 (keysOf_dropUndefined_subset rest hc)
        simp [lookupKey, hv, hnone]
    · cases hv : p.2 with
      | some v =>
        rw [dropUndefined_cons_some p rest v hv]
        simp only [lookupKey, if_neg hk]
        exact ih hnd2
      | none =>
        rw [dropUndefined_cons_none p rest hv]
        simp only [lookupKey, if_neg hk]
        exact ih hnd2

theorem keysOf_liftSome (l : List (String × JVal)) :
    keysOf (l.map (fun p => (p.1, some p.2))) = keysOf l := by
  unfold keysOf
  rw [List.map_map]
  rfl

/-! Branch characterizations of the update handler. -/

/-- The table string the handler interpolates into upstream URLs. -/
def tableOf (b : Body) : String := b.table.getD ""

/-- The search call every post-guard run issues first. -/
def searchCallOf (b : Body) : UpCall :=
  .search (tableOf b) (filterField b) (filterValue b)

theorem runUpdate_createPath_calls (env : Env) (b : Body) (sr wr : UpResponse)
    (sink : SinkResult)
    (hval : invalidPayload b = false)
    (htab : allowedTables.contains (tableOf b) = true)
    (htok : ¬env.airtableToken = "") (hbase : ¬env.airtableBaseId = "")
    (hok : sr.ok = true) (hrec : getRecordsList sr.body = .ok []) :
    (runUpdate env (some b) sr wr sink).calls =
      [searchCallOf b, .create (tableOf b) (createFieldsSent b)] := by
  unfold runUpdate
  simp only [searchCallOf, tableOf] at *
  simp only [hval, htab, hok, hrec, Bool.not_true, Bool.false_eq_true, if_false,
    Bool.true_eq_false, Bool.not_false, if_true, eq_self_iff_true]
  simp only [htok, hbase, or_self, if_false, false_or, or_false, eq_self_iff_true]
  cases hw : wr.ok with
  | false => rfl
  | true =>
    cases hcw : getRecordsList wr.body with
    | error e => rfl
    | ok created =>
      cases created with
      | nil => rfl
      | cons r0 tail =>
        cases hid : propAccess r0 "id" with
        | error e =>
          cases hfs : propAccess r0 "fields" with
          | error e2 => simp only [hid, hfs]; rfl
          | ok rfs => simp only [hid, hfs]; rfl
        | ok rid =>
          cases hfs : propAccess r0 "fields" with
          | error e2 => simp only [hid, hfs]; rfl
          | ok rfs => simp only [hid, hfs]; rfl




theorem runUpdate_updatePath_calls (env : Env) (b : Body) (sr wr : UpResponse)
    (sink : SinkResult) (r0 : JVal) (rest : List JVal) (rid : Option JVal)
    (hval : invalidPayload b = false)
    (htab : allowedTables.contains (tableOf b) = true)
    (htok : ¬env.airtableToken = "") (hbase : ¬env.airtableBaseId = "")
    (hok : sr.ok = true) (hrec : getRecordsList sr.body = .ok (r0 :: rest))
    (hid : propAccess r0 "id" = .ok rid) :
    (runUpdate env (some b) sr wr sink).calls =
      [searchCallOf b, .patch (tableOf b) rid (cleanedFields (b.fields.getD .jnull))] := by
  unfold runUpdate
  simp only [searchCallOf, tableOf] at *
  simp only [hval, htab, hok, hrec, hid, Bool.not_true, Bool.false_eq_true, if_false,
    Bool.true_eq_false, Bool.not_false, if_true, eq_self_iff_true]
  simp only [htok, hbase, or_self, if_false, false_or, or_false, eq_self_iff_true]
  cases hw : wr.ok with
  | false => rfl
  | true =>
    cases hfs : propAccess wr.body "fields" with
    | error e => simp only [hfs]; rfl
    | ok rfs => simp only [hfs]; rfl

/-! ## Claim C1: resolution of the lookup key -/

/-- A request supplying matchField and a title but no matchValue; it passes
the validation guard because a title is present. -/
def reqMixedKey : Body :=
  ⟨some "tblQKTuBRVrpJLmJp", some "Ep12", some (.jobj []), some "Email", none⟩

/-- C1, counterexample: for `reqMixedKey`, matchField and matchValue are not
both supplied (matchValue is absent), yet the resolved key is
("Email", "Ep12") and not ("Title", title) as the claim requires for such a
request: the two fallbacks of the key resolver are independent. -/
theorem C1_counterexample :
    reqMixedKey.matchValue = none ∧
    resolvedKey reqMixedKey = ("Email", some "Ep12") ∧
    resolvedKey reqMixedKey ≠ ("Title", reqMixedKey.title) :=
  ⟨rfl, rfl, fun h => absurd (congrArg Prod.fst h) (by decide)⟩

/-- C1, amended: the key resolver computes its two components independently,
and the four conjuncts below pin each component in every case. The filter
field is the supplied matchField whenever that member is truthy and "Title"
whenever it is not; the filter value is matchValue whenever that member is
truthy and the title whenever it is not — each fallback regardless of the
other member of the pair. In particular, when both are supplied they form
the resolved key, and in the mixed case (matchField truthy, matchValue
falsy) the key is (matchField, title). -/
theorem C1_resolvedKey (b : Body) :
    (∀ s, b.matchField = some s → s ≠ "" → (resolvedKey b).1 = s) ∧
    (truthyS b.matchField = false → (resolvedKey b).1 = "Title") ∧
    (truthyS b.matchValue = true → (resolvedKey b).2 = b.matchValue) ∧
    (truthyS b.matchValue = false → (resolvedKey b).2 = b.title) := by
  refine ⟨fun s hs hne => ?_, fun hf => ?_, fun hv => ?_, fun hv => ?_⟩
  · simp [resolvedKey, filterField, hs, hne]
  · cases hmf : b.matchField with
    | none => simp [resolvedKey, filterField, hmf]
    | some s =>
      rw [hmf] at hf
      have hs : ¬s ≠ "" := by simpa [truthyS] using hf
      simp [resolvedKey, filterField, hmf, hs]
  · simp [resolvedKey, filterValue, hv]
  · simp [resolvedKey, filterValue, hv]

/-- C1 witness: the amended resolver facts applied at concrete inputs,
including both components of the mixed case `reqMixedKey` (matchField
supplied, matchValue absent): its filter field is the matchField and its
filter value falls back to the title. -/
theorem C1_resolvedKey_witness :
    (resolvedKey reqMixedKey).1 = "Email" ∧
    (resolvedKey reqMixedKey).2 = some "Ep12" ∧
    (resolvedKey ⟨some "t", some "T", some (.jobj []), none, some "V"⟩).1 = "Title" ∧
    (resolvedKey ⟨some "t", some "T", some (.jobj []), none, some "V"⟩).2 = some "V" :=
  ⟨(C1_resolvedKey reqMixedKey).1 "Email" rfl (by decide),
   (C1_resolvedKey reqMixedKey).2.2.2 (by decide),
   (C1_resolvedKey _).2.1 (by decide),
   (C1_resolvedKey _).2.2.1 (by decide)⟩

/-! ## Claim C2: create vs update decided by result cardinality -/

/-- C2: when the lookup read succeeds, the handler issues the create write
exactly when the returned record list is empty; with one or more matches it
issues a patch whose target record id is the id of the first returned
record, whatever the rest of the list is — more than one match takes the
same update path, not an error branch. -/
theorem C2_branchOnCardinality (env : Env) (b : Body) (sr wr : UpResponse)
    (sink : SinkResult) (xs : List JVal)
    (hval : invalidPayload b = false)
    (htab : allowedTables.contains (tableOf b) = true)
    (htok : ¬env.airtableToken = "") (hbase : ¬env.airtableBaseId = "")
    (hok : sr.ok = true) (hrec : getRecordsList sr.body = .ok xs) :
    (xs = [] →
      (runUpdate env (some b) sr wr sink).calls =
        [searchCallOf b, .create (tableOf b) (createFieldsSent b)]) ∧
    (∀ r0 rest rid, xs = r0 :: rest → propAccess r0 "id" = .ok rid →
      (runUpdate env (some b) sr wr sink).calls =
        [searchCallOf b, .patch (tableOf b) rid (cleanedFields (b.fields.getD .jnull))]) := by
  constructor
  · intro hxs
    exact runUpdate_createPath_calls env b sr wr sink hval htab htok hbase hok (hxs ▸ hrec)
  · intro r0 rest rid hxs hid
    exact runUpdate_updatePath_calls env b sr wr sink r0 rest rid hval htab htok hbase hok
      (hxs ▸ hrec) hid

/-- C2 witness: zero matches lead to the create call, two matches lead to a
patch of the first returned record "rec1". -/
theorem C2_branchOnCardinality_witness :
    (runUpdate envStd (some reqTitle) searchEmpty writeCreated (.delivered true 200)).calls =
      [searchCallOf reqTitle, .create (tableOf reqTitle) (createFieldsSent reqTitle)] ∧
    (runUpdate envStd (some reqTitle) searchTwo writePatched (.delivered true 200)).calls =
      [searchCallOf reqTitle, .patch (tableOf reqTitle) (some (.jstr "rec1"))
        (cleanedFields (reqTitle.fields.getD .jnull))] :=
  ⟨(C2_branchOnCardinality envStd reqTitle searchEmpty writeCreated (.delivered true 200) []
      (by decide) (by decide) (by decide) (by decide) rfl rfl).1 rfl,
   (C2_branchOnCardinality envStd reqTitle searchTwo writePatched (.delivered true 200)
      [rec1, rec2] (by decide) (by decide) (by decide) (by decide) rfl rfl).2
      rec1 [rec2] (some (.jstr "rec1")) rfl rfl⟩

/-- Every run of the update handler issues one of four upstream call
sequences: none, search only, search then create, or search then patch. -/
theorem runUpdate_calls_cases (env : Env) (b : Body) (sr wr : UpResponse)
    (sink : SinkResult) :
    (runUpdate env (some b) sr wr sink).calls = [] ∨
    (runUpdate env (some b) sr wr sink).calls = [searchCallOf b] ∨
    (runUpdate env (some b) sr wr sink).calls =
      [searchCallOf b, .create (tableOf b) (createFieldsSent b)] ∨
    ∃ rid, (runUpdate env (some b) sr wr sink).calls =
      [searchCallOf b, .patch (tableOf b) rid (cleanedFields (b.fields.getD .jnull))] := by
  simp only [runUpdate]
  repeat' split
  all_goals simp [searchCallOf, tableOf, unhandledOutcome]

/-- Any patch call in a run's trace carries exactly the sanitized fields. -/
theorem patchCall_fields (env : Env) (b : Body) (sr wr : UpResponse)
    (sink : SinkResult) (t : String) (rid : Option JVal)
    (flds : List (String × JVal))
    (hmem : UpCall.patch t rid flds ∈ (runUpdate env (some b) sr wr sink).calls) :
    flds = cleanedFields (b.fields.getD .jnull) := by
  rcases runUpdate_calls_cases env b sr wr sink with h | h | h | ⟨rid2, h⟩
  · rw [h] at hmem; simp at hmem
  · rw [h] at hmem; simp [searchCallOf] at hmem
  · rw [h] at hmem; simp [searchCallOf] at hmem
  · rw [h] at hmem
    simp [searchCallOf] at hmem
    exact hmem.2.2

/-- Any create call in a run's trace carries exactly the serialized create
bag. -/
theorem createCall_fields (env : Env) (b : Body) (sr wr : UpResponse)
    (sink : SinkResult) (t : String) (flds : List (String × JVal))
    (hmem : UpCall.create t flds ∈ (runUpdate env (some b) sr wr sink).calls) :
    flds = createFieldsSent b := by
  rcases runUpdate_calls_cases env b sr wr sink with h | h | h | ⟨rid2, h⟩
  · rw [h] at hmem; simp at hmem
  · rw [h] at hmem; simp [searchCallOf] at hmem
  · rw [h] at hmem
    simp [searchCallOf] at hmem
    exact hmem.2
  · rw [h] at hmem; simp [searchCallOf] at hmem

/-! ## Claim C3: sanitization and its application to both writes -/

theorem isEmptyString_eq_false_iff (v : JVal) :
    v.isEmptyString = false ↔ v ≠ .jstr "" := by
  cases v <;> simp [JVal.isEmptyString]

/-- C3: the sanitized mapping keeps exactly the entries of the input whose
value is not the empty string, each preserved unchanged; every patch call
the handler issues carries exactly the sanitized mapping, and every create
call carries the bag built over the sanitized mapping. -/
theorem C3_sanitizedFields (env : Env) (b : Body) (sr wr : UpResponse)
    (sink : SinkResult) (f : JVal) (k : String) (v : JVal) :
    ((k, v) ∈ cleanedFields f ↔ (k, v) ∈ entriesOf f ∧ v ≠ .jstr "") ∧
    (∀ t rid flds, UpCall.patch t rid flds ∈ (runUpdate env (some b) sr wr sink).calls →
      flds = cleanedFields (b.fields.getD .jnull)) ∧
    (∀ t flds, UpCall.create t flds ∈ (runUpdate env (some b) sr wr sink).calls →
      flds = createFieldsSent b) := by
  refine ⟨?_, ?_, ?_⟩
  · simp [cleanedFields, List.mem_filter, Bool.not_eq_true', isEmptyString_eq_false_iff]
  · exact fun t rid flds hmem => patchCall_fields env b sr wr sink t rid flds hmem
  · exact fun t flds hmem => createCall_fields env b sr wr sink t flds hmem

/-- C3 witness: the sanitized mapping of the fixture keeps Status and drops
the empty AirDate; the concrete patch and create calls carry exactly those
sanitized bags. -/
theorem C3_sanitizedFields_witness :
    ("Status", JVal.jstr "P") ∈
      cleanedFields (.jobj [("Status", .jstr "P"), ("AirDate", .jstr "")]) ∧
    [("Status", JVal.jstr "P")] = cleanedFields (reqTitle.fields.getD .jnull) ∧
    [("Title", JVal.jstr "Ep12"), ("Status", JVal.jstr "P")] = createFieldsSent reqTitle :=
  ⟨((C3_sanitizedFields envStd reqTitle searchOne writePatched (.delivered true 200)
      (.jobj [("Status", .jstr "P"), ("AirDate", .jstr "")]) "Status" (.jstr "P")).1).mpr
      ⟨by simp [entriesOf], by simp⟩,
   (C3_sanitizedFields envStd reqTitle searchOne writePatched (.delivered true 200)
      (.jobj []) "Status" (.jstr "P")).2.1 (tableOf reqTitle) (some (.jstr "rec1"))
      [("Status", JVal.jstr "P")] (List.Mem.tail _ (List.Mem.head _)),
   (C3_sanitizedFields envStd reqTitle searchEmpty writeCreated (.delivered true 200)
      (.jobj []) "Status" (.jstr "P")).2.2 (tableOf reqTitle)
      [("Title", JVal.jstr "Ep12"), ("Status", JVal.jstr "P")]
      (List.Mem.tail _ (List.Mem.head _))⟩

/-! ## Claim C4: the Title member of the create write -/

/-- A valid request identifying its record via matchField/matchValue only,
with no title. -/
def reqMatchOnly : Body :=
  ⟨some "tblQKTuBRVrpJLmJp", none, some (.jobj [("Status", .jstr "New")]),
    some "Email", some "a@b.c"⟩

/-- C4, counterexample: on the create path of a request that identified the
record via matchField/matchValue and supplied no title, the created fields
are the sanitized fields alone, with no Title entry: the undefined Title
member is dropped during serialization, so the literal title is not always
included. -/
theorem C4_counterexample :
    (runUpdate envStd (some reqMatchOnly) searchEmpty writeCreated
        (.delivered true 200)).calls =
      [searchCallOf reqMatchOnly,
       .create (tableOf reqMatchOnly) [("Status", JVal.jstr "New")]] ∧
    lookupKey (createFieldsSent reqMatchOnly) "Title" = none :=
  ⟨rfl, rfl⟩

theorem cleanedFields_keys_nodup (f : JVal) (hnd : (keysOf (entriesOf f)).Nodup) :
    (keysOf (cleanedFields f)).Nodup := by
  have hsub : List.Sublist (keysOf (cleanedFields f)) (keysOf (entriesOf f)) :=
    List.Sublist.map Prod.fst (List.filter_sublist _)
  exact hnd.sublist hsub

/-- When the sanitized fields do not bind Title, the Title member of the
create bag is the raw request title (absent when the title is absent). -/
theorem createFieldsSent_lookup_title (b : Body) (f : JVal) (hf : b.fields = some f)
    (hnone : lookupKey (cleanedFields f) "Title" = none) :
    lookupKey (createFieldsSent b) "Title" = b.title.map JVal.jstr := by
  have hff : b.fields.getD .jnull = f := by rw [hf]; rfl
  have hnotin :
      "Title" ∉ keysOf ((cleanedFields f).map (fun p => (p.1, some p.2))) := by
    rw [keysOf_liftSome]
    exact (lookupKey_eq_none_iff _ _).mp hnone
  unfold createFieldsSent
  rw [hff, lookupKey_dropUndefined _ _ (nodup_keysOf_objSpread _ _ (by simp [keysOf])),
    lookupKey_objSpread_not_mem _ _ _ hnotin]
  cases b.title <;> simp [lookupKey]

/-- Every sanitized entry reaches the create bag with its own value (the
spread binds it over the Title member). -/
theorem createFieldsSent_lookup_mem (b : Body) (f : JVal) (hf : b.fields = some f)
    (hnd : (keysOf (entriesOf f)).Nodup) (k : String) (v : JVal)
    (hm : (k, v) ∈ cleanedFields f) :
    lookupKey (createFieldsSent b) k = some v := by
  have hff : b.fields.getD .jnull = f := by rw [hf]; rfl
  have hndl : (keysOf ((cleanedFields f).map (fun p => (p.1, some p.2)))).Nodup := by
    rw [keysOf_liftSome]
    exact cleanedFields_keys_nodup f hnd
  have hml : (k, some v) ∈ (cleanedFields f).map (fun p => (p.1, some p.2)) :=
    List.mem_map.mpr ⟨(k, v), hm, rfl⟩
  unfold createFieldsSent
  rw [hff, lookupKey_dropUndefined _ _ (nodup_keysOf_objSpread _ _ (by simp [keysOf])),
    lookupKey_objSpread_mem _ _ _ _ hndl hml]
  rfl

/-- C4, amended: the create write sends the sanitized fields spread over a
Title member holding the raw title. When a title is supplied and the
sanitized fields do not themselves bind Title, the created bag carries
Title = title; when no title is supplied (matchField/matchValue
identification) the Title member is dropped from the serialized bag; and
every sanitized entry is carried with its own value, so a Title entry in
the sanitized fields overrides the request title. -/
theorem C4_createTitle (b : Body) (f : JVal) (hf : b.fields = some f)
    (hnd : (keysOf (entriesOf f)).Nodup) :
    (∀ t, b.title = some t → lookupKey (cleanedFields f) "Title" = none →
      lookupKey (createFieldsSent b) "Title" = some (.jstr t)) ∧
    (b.title = none → lookupKey (cleanedFields f) "Title" = none →
      lookupKey (createFieldsSent b) "Title" = none) ∧
    (∀ k v, (k, v) ∈ cleanedFields f → lookupKey (createFieldsSent b) k = some v) := by
  refine ⟨?_, ?_, fun k v hm => createFieldsSent_lookup_mem b f hf hnd k v hm⟩
  · intro t ht hnone
    rw [createFieldsSent_lookup_title b f hf hnone, ht]
    rfl
  · intro ht hnone
    rw [createFieldsSent_lookup_title b f hf hnone, ht]
    rfl

/-- C4 witness: the amended create-bag facts at concrete requests — Title
present and equal to the request title for `reqTitle`, absent for the
title-less `reqMatchOnly`, and a sanitized entry carried through. -/
theorem C4_createTitle_witness :
    lookupKey (createFieldsSent reqTitle) "Title" = some (.jstr "Ep12") ∧
    lookupKey (createFieldsSent reqMatchOnly) "Title" = none ∧
    lookupKey (createFieldsSent reqTitle) "Status" = some (.jstr "P") :=
  ⟨(C4_createTitle reqTitle (.jobj [("Status", .jstr "P"), ("AirDate", .jstr "")])
      rfl (by decide)).1 "Ep12" rfl rfl,
   (C4_createTitle reqMatchOnly (.jobj [("Status", .jstr "New")])
      rfl (by decide)).2.1 rfl rfl,
   (C4_createTitle reqTitle (.jobj [("Status", .jstr "P"), ("AirDate", .jstr "")])
      rfl (by decide)).2.2 "Status" (.jstr "P") (List.Mem.head _)⟩

/-- The payload logToGrafana reports is independent of what the sink does
with the delivery. -/
theorem logToGrafana_eq (sink : SinkResult) (level msg service : String)
    (upStatus : Option Nat) (upBody : Option JVal) :
    logToGrafana sink level msg service upStatus upBody =
      ⟨level, msg, service, "gr8r-airtable-worker", upStatus, upBody⟩ := by
  unfold logToGrafana
  cases hs : logAttempt sink <;> rfl

/-! ## Claim C5: the table allowlist and upstream calls -/

/-- C5, counterexample: the read-only lookup route has no allowlist check —
a get request naming a table outside the allowlist still issues the
upstream search call. -/
theorem C5_counterexample :
    allowedTables.contains "SecretTable" = false ∧
    (runGet envStd (some ⟨some "SecretTable", some "Email", some "a@b.c"⟩)
        searchOne (.delivered true 200)).calls =
      [UpCall.search "SecretTable" "Email" (some "a@b.c")] :=
  ⟨rfl, rfl⟩

/-- C5, amended: on the upsert route the allowlist is checked before any
upstream call — a shape-valid request naming a table outside the allowlist
receives the 403 response and no upstream call is made — while the
companion lookup route checks only member presence and issues its upstream
search without consulting the allowlist. -/
theorem C5_allowlistGuard (env : Env) (b : Body) (sr wr : UpResponse)
    (sink : SinkResult) (g : GetBody) (sg : UpResponse)
    (hval : invalidPayload b = false)
    (htab : allowedTables.contains (tableOf b) = false) :
    ((runUpdate env (some b) sr wr sink).resp.status = 403 ∧
     (runUpdate env (some b) sr wr sink).calls = []) ∧
    (truthyS g.table = true → truthyS g.matchField = true →
      truthyS g.matchValue = true →
      (runGet env (some g) sg sink).calls =
        [UpCall.search (g.table.getD "") (g.matchField.getD "") g.matchValue]) := by
  have h403 : runUpdate env (some b) sr wr sink =
      { resp := ⟨403, .text "Invalid table"⟩,
        events := [logToGrafana sink "error" "Invalid table name" "validation" none none],
        calls := [] } := by
    simp only [runUpdate]
    rw [if_neg (by simp [hval])]
    rw [if_pos (by simp only [tableOf] at htab; rw [htab]; rfl)]
  refine ⟨⟨by rw [h403], by rw [h403]⟩, fun h1 h2 h3 => ?_⟩
  simp only [runGet]
  rw [if_neg (by simp [h1, h2, h3])]

/-- C5 witness: the amended guard facts at concrete requests — a 403 with
no upstream call on the upsert route, and an unchecked upstream search on
the lookup route. -/
theorem C5_allowlistGuard_witness :
    ((runUpdate envStd (some ⟨some "Elsewhere", some "T", some (.jobj []), none, none⟩)
        searchOne writePatched (.delivered true 200)).resp.status = 403 ∧
     (runUpdate envStd (some ⟨some "Elsewhere", some "T", some (.jobj []), none, none⟩)
        searchOne writePatched (.delivered true 200)).calls = []) ∧
    (runGet envStd (some ⟨some "Elsewhere", some "F", some "V"⟩) searchOne
        (.delivered true 200)).calls = [UpCall.search "Elsewhere" "F" (some "V")] :=
  ⟨(C5_allowlistGuard envStd ⟨some "Elsewhere", some "T", some (.jobj []), none, none⟩
      searchOne writePatched (.delivered true 200) ⟨some "Elsewhere", some "F", some "V"⟩
      searchOne (by decide) (by decide)).1,
   (C5_allowlistGuard envStd ⟨some "Elsewhere", some "T", some (.jobj []), none, none⟩
      searchOne writePatched (.delivered true 200) ⟨some "Elsewhere", some "F", some "V"⟩
      searchOne (by decide) (by decide)).2 (by decide) (by decide) (by decide)⟩

/-! ## Claim C6: failed lookup read -/

/-- C6, counterexample: on a failed search for the allowlisted table
"tblQKTuBRVrpJLmJp", the emitted event's service tag is the constant
"airtable-search" and not "<table>-search" built from the request table. -/
theorem C6_counterexample :
    (runUpdate envStd (some reqTitle) upFailed writePatched
        (.delivered true 200)).events.map Event.service = ["airtable-search"] ∧
    "airtable-search" ≠ tableOf reqTitle ++ "-search" :=
  ⟨rfl, by decide⟩

/-- C6, amended: when the lookup read returns a non-success status, the run
emits exactly one error event — service tag the constant "airtable-search",
carrying the upstream status and response body — returns status 500, and
issues no create and no patch call (its call trace is the search alone). -/
theorem C6_searchFailure (env : Env) (b : Body) (sr wr : UpResponse)
    (sink : SinkResult)
    (hval : invalidPayload b = false)
    (htab : allowedTables.contains (tableOf b) = true)
    (htok : ¬env.airtableToken = "") (hbase : ¬env.airtableBaseId = "")
    (hok : sr.ok = false) :
    (runUpdate env (some b) sr wr sink).events =
      [⟨"error", "Airtable search failed", "airtable-search",
        "gr8r-airtable-worker", some sr.status, some sr.body⟩] ∧
    (runUpdate env (some b) sr wr sink).resp.status = 500 ∧
    (runUpdate env (some b) sr wr sink).calls = [searchCallOf b] := by
  have hrun : runUpdate env (some b) sr wr sink =
      { resp := ⟨500, .text "Airtable search failed"⟩,
        events := [logToGrafana sink "error" "Airtable search failed" "airtable-search"
          (some sr.status) (some sr.body)],
        calls := [UpCall.search (b.table.getD "") (filterField b) (filterValue b)] } := by
    simp only [runUpdate]
    rw [if_neg (by simp [hval])]
    rw [if_neg (by simp only [tableOf] at htab; rw [htab]; simp)]
    rw [if_neg (by simp [htok, hbase])]
    rw [if_pos (by rw [hok]; rfl)]
  rw [hrun, logToGrafana_eq]
  exact ⟨rfl, rfl, rfl⟩

/-- C6 witness: the amended search-failure facts at a concrete failing
search. -/
theorem C6_searchFailure_witness :
    (runUpdate envStd (some reqTitle) upFailed writePatched
        (.delivered true 200)).events =
      [⟨"error", "Airtable search failed", "airtable-search",
        "gr8r-airtable-worker", some upFailed.status, some upFailed.body⟩] ∧
    (runUpdate envStd (some reqTitle) upFailed writePatched
        (.delivered true 200)).resp.status = 500 ∧
    (runUpdate envStd (some reqTitle) upFailed writePatched
        (.delivered true 200)).calls = [searchCallOf reqTitle] :=
  C6_searchFailure envStd reqTitle upFailed writePatched (.delivered true 200)
    (by decide) (by decide) (by decide) (by decide) rfl

/-! ## Claim C7: the telemetry sink cannot influence the caller -/

/-- C7: two runs of either route that differ only in the sink behavior
(successful delivery, non-success status, thrown delivery) produce the same
whole observable outcome — in particular the same caller-visible response:
logToGrafana always returns normally and the primary operation is
unaffected by anything the sink does. -/
theorem C7_telemetryNonInterference (env : Env) (reqBody : Option Body)
    (g : Option GetBody) (sr wr sg : UpResponse) (k1 k2 : SinkResult) :
    runUpdate env reqBody sr wr k1 = runUpdate env reqBody sr wr k2 ∧
    runGet env g sg k1 = runGet env g sg k2 := by
  constructor
  · cases reqBody with
    | none => simp [runUpdate, unhandledOutcome, logToGrafana_eq]
    | some b => simp [runUpdate, unhandledOutcome, logToGrafana_eq]
  · cases g with
    | none => simp [runGet, logToGrafana_eq]
    | some gg => simp [runGet, logToGrafana_eq]

/-! ## Claim C8: exactly one OutcomeEvent per upsert call -/

/-- C8: every run of the upsert handler — validation failure, allowlist
failure, missing secrets, upstream failure, success, or a thrown access on
a malformed body or upstream echo — emits exactly one telemetry event
before returning. -/
theorem C8_exactlyOneEvent (env : Env) (reqBody : Option Body)
    (sr wr : UpResponse) (sink : SinkResult) :
    (runUpdate env reqBody sr wr sink).events.length = 1 := by
  cases reqBody with
  | none => rfl
  | some b =>
    simp only [runUpdate]
    repeat' split
    all_goals simp [unhandledOutcome]

/-! ## Claim C9: the shape of the validation guard -/

/-- A request whose fields member is an array. -/
def reqArrayFields : Body :=
  ⟨some "tblQKTuBRVrpJLmJp", some "T", some (.jarr []), none, none⟩

/-- C9, counterexample: a request whose fields member is an array is not
rejected — typeof an array is "object" — so it passes validation, the
upstream search and create calls are issued, and the run ends with the
success status rather than a 400. -/
theorem C9_counterexample :
    invalidPayload reqArrayFields = false ∧
    (runUpdate envStd (some reqArrayFields) searchEmpty writeCreated
        (.delivered true 200)).calls =
      [searchCallOf reqArrayFields,
       .create (tableOf reqArrayFields) [("Title", JVal.jstr "T")]] ∧
    (runUpdate envStd (some reqArrayFields) searchEmpty writeCreated
        (.delivered true 200)).resp.status = 200 :=
  ⟨rfl, rfl, rfl⟩

/-- C9, amended: a request whose fields member is absent, null or a scalar
(string, number, boolean), or which supplies no identification strategy
(no truthy title and not both matchField and matchValue truthy), is
rejected with status 400, one validation-tagged event, and no upstream
call; no allowlist hypothesis is needed, because the shape check runs
before the allowlist check. An array-valued fields member, however, passes
the object-type check and is not rejected. -/
theorem C9_validationGuard (env : Env) (b : Body) (sr wr : UpResponse)
    (sink : SinkResult)
    (hbad : truthyJ b.fields = false ∨ typeofObjectOpt b.fields = false ∨
      (truthyS b.title = false ∧
        (truthyS b.matchField = false ∨ truthyS b.matchValue = false))) :
    ((runUpdate env (some b) sr wr sink).resp.status = 400 ∧
     (runUpdate env (some b) sr wr sink).calls = [] ∧
     (runUpdate env (some b) sr wr sink).events.map Event.service = ["validation"]) ∧
    (∀ xs, b.fields = some (.jarr xs) → typeofObjectOpt b.fields = true) := by
  have hval : invalidPayload b = true := by
    unfold invalidPayload
    rcases hbad with h | h | ⟨h1, h2⟩
    · simp [h]
    · simp [h]
    · rcases h2 with h2 | h2 <;> simp [h1, h2]
  have hrun : runUpdate env (some b) sr wr sink =
      { resp := ⟨400, .text "Missing or invalid fields"⟩,
        events := [logToGrafana sink "error" "Missing or invalid payload fields"
          "validation" none none],
        calls := [] } := by
    simp only [runUpdate]
    rw [if_pos hval]
  refine ⟨⟨by rw [hrun], by rw [hrun], ?_⟩, fun xs hxs => by rw [hxs]; rfl⟩
  rw [hrun, logToGrafana_eq]
  rfl

/-- C9 witness: a string-valued fields member on a table outside the
allowlist is answered 400 (not 403) with no upstream call and one
validation event. -/
theorem C9_validationGuard_witness :
    ((runUpdate envStd (some ⟨some "Elsewhere", some "T", some (.jstr "oops"), none, none⟩)
        searchOne writePatched (.delivered true 200)).resp.status = 400 ∧
     (runUpdate envStd (some ⟨some "Elsewhere", some "T", some (.jstr "oops"), none, none⟩)
        searchOne writePatched (.delivered true 200)).calls = [] ∧
     (runUpdate envStd (some ⟨some "Elsewhere", some "T", some (.jstr "oops"), none, none⟩)
        searchOne writePatched (.delivered true 200)).events.map Event.service =
       ["validation"]) ∧
    (∀ xs, (⟨some "Elsewhere", some "T", some (.jstr "oops"), none, none⟩ : Body).fields =
      some (.jarr xs) → typeofObjectOpt (some (.jstr "oops")) = true) :=
  C9_validationGuard envStd ⟨some "Elsewhere", some "T", some (.jstr "oops"), none, none⟩
    searchOne writePatched (.delivered true 200) (Or.inr (Or.inl rfl))

/-! ## Claim C10: a Title entry inside the sanitized fields wins -/

/-- C10: when the sanitized fields themselves bind Title to a non-empty
string, the create bag carries that caller-supplied value for Title —
whatever the request title was, since the spread overrides the Title
member — and every patch call of any run over this request carries the
same entry, because the patch bag is exactly the sanitized fields. -/
theorem C10_fieldsTitleWins (b : Body) (f : JVal) (hf : b.fields = some f)
    (hnd : (keysOf (entriesOf f)).Nodup) (s : String)
    (hmem : ("Title", JVal.jstr s) ∈ entriesOf f) (hs : s ≠ "") :
    lookupKey (createFieldsSent b) "Title" = some (.jstr s) ∧
    (∀ env sr wr sink t rid flds,
      UpCall.patch t rid flds ∈ (runUpdate env (some b) sr wr sink).calls →
      ("Title", JVal.jstr s) ∈ flds) := by
  have hc : ("Title", JVal.jstr s) ∈ cleanedFields f :=
    List.mem_filter.mpr ⟨hmem, by simp [JVal.isEmptyString, hs]⟩
  refine ⟨createFieldsSent_lookup_mem b f hf hnd "Title" (.jstr s) hc, ?_⟩
  intro env sr wr sink t rid flds hpm
  rw [patchCall_fields env b sr wr sink t rid flds hpm, hf]
  exact hc

/-- C10 witness: a request whose fields bind Title to "Other" — the create
bag carries Title = "Other" (not the request title "Ep12") and the concrete
patch call carries the same entry. -/
theorem C10_fieldsTitleWins_witness :
    lookupKey (createFieldsSent
      ⟨some "tblQKTuBRVrpJLmJp", some "Ep12", some (.jobj [("Title", .jstr "Other")]),
        none, none⟩) "Title" = some (.jstr "Other") ∧
    ("Title", JVal.jstr "Other") ∈
      (cleanedFields (.jobj [("Title", .jstr "Other")])) :=
  ⟨(C10_fieldsTitleWins
      ⟨some "tblQKTuBRVrpJLmJp", some "Ep12", some (.jobj [("Title", .jstr "Other")]),
        none, none⟩
      (.jobj [("Title", .jstr "Other")]) rfl (by decide) "Other"
      (List.Mem.head _) (by decide)).1,
   List.Mem.head _⟩
